import Mathlib

set_option autoImplicit false

/-
Shallow embedding of gsp_adf_source/adf.py: a single adapter class
(ADFSource) that acquires an Azure bearer token, lists Data Factory
pipelines through the ARM management API, flattens each pipeline
activities into normalized tasks and emits one CreatePipelineRequest
per remote pipeline descriptor.

JSON values decoded from HTTP bodies are embedded as the inductive
type Json below; Python dict/attribute errors are embedded as the
PyErr error type, and every fallible step returns Except PyErr.
HTTP responses are oracle inputs: each network call is embedded as a
function consuming the response the server would have produced.
-/

namespace ADF

/-- A decoded JSON value, as produced by response.json in the source.
Python None and a missing key both surface as null through dict.get.  -/
inductive Json where
  | null : Json
  | bool : Bool → Json
  | str : String → Json
  | num : Int → Json
  | arr : List Json → Json
  | obj : List (String × Json) → Json

/-- Python exceptions that the source code can raise: AttributeError
(calling .get on a non-dict), TypeError (iterating or subscripting a
non-container), KeyError (dict subscript on a missing key),
requests.HTTPError from raise_for_status (carrying the status code),
and requests timeouts. -/
inductive PyErr where
  | attributeError : PyErr
  | typeError : PyErr
  | keyError : String → PyErr
  | httpError : Nat → PyErr
  | timeout : PyErr

/-- Python truthiness of a decoded JSON value: None, False, 0, the
empty string, the empty list and the empty dict are falsy. -/
def Json.truthy : Json → Bool
  | .null => false
  | .bool b => b
  | .str s => s != ""
  | .num n => n != 0
  | .arr l => !l.isEmpty
  | .obj l => !l.isEmpty

/-- Python `a or b` on decoded JSON values. -/
def pyOr (a b : Json) : Json := if a.truthy then a else b

/-- Value of key k in an embedded dict, with missing keys surfacing as
null, exactly as the one-argument dict.get does in Python. -/
def objGet (kvs : List (String × Json)) (k : String) : Json :=
  (kvs.lookup k).getD Json.null

/-- Python one-argument d.get(k): None when the key is missing,
AttributeError when the receiver is not a dict. -/
def Json.get1 : Json → String → Except PyErr Json
  | .obj kvs, k => .ok (objGet kvs k)
  | _, _ => .error .attributeError

/-- Python two-argument d.get(k, default): the default only applies
when the key is missing, AttributeError when the receiver is not a
dict. -/
def Json.dget : Json → String → Json → Except PyErr Json
  | .obj kvs, k, d => .ok ((kvs.lookup k).getD d)
  | _, _, _ => .error .attributeError

/-- Python subscript d[k]: KeyError when the key is missing from a
dict, TypeError when the receiver is not subscriptable by a string. -/
def Json.getItem : Json → String → Except PyErr Json
  | .obj kvs, k =>
    match kvs.lookup k with
    | some v => .ok v
    | none => .error (.keyError k)
  | _, _ => .error .typeError

/-- Python iteration over a decoded JSON value: a list yields its
elements, a dict its keys, a string its characters, everything else
raises TypeError. -/
def Json.iter : Json → Except PyErr (List Json)
  | .arr xs => .ok xs
  | .obj kvs => .ok (kvs.map (fun kv => Json.str kv.1))
  | .str s => .ok (s.data.map (fun c => Json.str (String.singleton c)))
  | _ => .error .typeError

/-- Python str() of a decoded JSON value, as interpolated into the
Bearer header. Faithful on the scalar values; the repr of containers
is not needed by any claim and is embedded as a placeholder. -/
def Json.pyStr : Json → String
  | .str s => s
  | .null => "None"
  | .bool true => "True"
  | .bool false => "False"
  | .num n => toString n
  | .arr _ => "<list>"
  | .obj _ => "<dict>"

/-- An HTTP response as the embedded oracle input of one network call:
status code plus decoded JSON body. -/
structure HttpResp where
  status : Nat
  body : Json

/-- requests raise_for_status: raises HTTPError carrying the status
exactly for 4xx and 5xx codes (400 to 599). -/
def raise_for_status (status : Nat) : Except PyErr Unit :=
  if 400 ≤ status ∧ status < 600 then .error (.httpError status) else .ok ()

/-- Embeds _get_azure_token given the token-endpoint response: calls
raise_for_status on the response status, then subscripts the decoded
body at access_token. -/
def get_azure_token (resp : HttpResp) : Except PyErr Json :=
  match raise_for_status resp.status with
  | .error e => .error e
  | .ok _ => resp.body.getItem "access_token"

/-- The normalized Task emitted for one activity descriptor. -/
structure Task where
  name : Json
  taskType : Json
  downstreamTasks : Option (List Json)

/-- EntityReference as constructed in next_record: id left unset. -/
structure EntityReference where
  id : Option Json
  type : String
  name : String

/-- The normalized pipeline-creation record emitted per remote
pipeline descriptor. -/
structure CreatePipelineRequest where
  name : Json
  displayName : Json
  description : Json
  service : EntityReference
  tasks : List Task
  sourceUrl : Json

/-- The instance state built by ADFSource init: the configuration
fields read from connectionOptions, the acquired token, the session
headers installed once at construction, and api_version. -/
structure ADFState where
  sub : String
  rg : String
  factory : String
  tenant : String
  cid : String
  csec : String
  service_name : String
  project : String
  token : Json
  sessionHeaders : List (String × String)
  api_version : String

/-- Python opts[k] on the connection-options dict: KeyError when the
key is missing. -/
def optGet (opts : List (String × String)) (k : String) : Except PyErr String :=
  match opts.lookup k with
  | some v => .ok v
  | none => .error (.keyError k)

/-- The seven required connection options read by ADFSource init, in
source order. -/
def requiredKeys : List String :=
  ["subscription_id", "resource_group", "factory_name", "tenant_id",
   "client_id", "client_secret", "service_name"]

/-- Embeds ADFSource init: reads the seven required options in source
order (each raising KeyError when missing), reads the optional project
label with default, then acquires the token from the token-endpoint
response and installs the Authorization header on the session. -/
def init (opts : List (String × String)) (tokenResp : HttpResp) : Except PyErr ADFState :=
  match optGet opts "subscription_id" with
  | .error e => .error e
  | .ok sub =>
    match optGet opts "resource_group" with
    | .error e => .error e
    | .ok rg =>
      match optGet opts "factory_name" with
      | .error e => .error e
      | .ok factory =>
        match optGet opts "tenant_id" with
        | .error e => .error e
        | .ok tenant =>
          match optGet opts "client_id" with
          | .error e => .error e
          | .ok cid =>
            match optGet opts "client_secret" with
            | .error e => .error e
            | .ok csec =>
              match optGet opts "service_name" with
              | .error e => .error e
              | .ok service_name =>
                match get_azure_token tokenResp with
                | .error e => .error e
                | .ok token =>
                  .ok { sub := sub, rg := rg, factory := factory,
                        tenant := tenant, cid := cid, csec := csec,
                        service_name := service_name,
                        project := (opts.lookup "project").getD "default",
                        token := token,
                        sessionHeaders :=
                          [("Authorization", "Bearer " ++ token.pyStr)],
                        api_version := "2018-06-01" }

/-- The Python comparison act_type == "Copy" on a decoded value. -/
def isCopy : Json → Bool
  | .str "Copy" => true
  | _ => false

/-- The nested lookup (act.get("typeProperties", ...).get("sink", ...)
or empty dict).get("type") performed for Copy activities. -/
def sinkType (act : Json) : Except PyErr Json :=
  match act.dget "typeProperties" (Json.obj []) with
  | .error e => .error e
  | .ok tp =>
    match tp.dget "sink" (Json.obj []) with
    | .error e => .error e
    | .ok s => (pyOr s (Json.obj [])).get1 "type"

/-- The deps list built for one activity: empty unless the activity
type equals Copy and the nested sink type is truthy. -/
def buildDeps (act actType : Json) : Except PyErr (List Json) :=
  if isCopy actType then
    match sinkType act with
    | .error e => .error e
    | .ok sink => .ok (if sink.truthy then [sink] else [])
  else .ok []

/-- Embeds the loop body of _build_tasks for one activity descriptor:
name and type fallbacks via Python `or`, downstreamTasks set to None
rather than the empty list when no dependency was inferred. -/
def buildTask (act : Json) : Except PyErr Task :=
  match act.get1 "name" with
  | .error e => .error e
  | .ok name =>
    match act.get1 "type" with
    | .error e => .error e
    | .ok actType =>
      match buildDeps act actType with
      | .error e => .error e
      | .ok deps =>
        .ok { name := pyOr name (Json.str "activity"),
              taskType := pyOr actType (Json.str "Activity"),
              downstreamTasks := if deps.isEmpty then none else some deps }

/-- Sequencing of a fallible map over a list in source order, stopping
at the first raised error, as a Python for-loop with append does. -/
def exceptMapList {α β : Type} (f : α → Except PyErr β) : List α → Except PyErr (List β)
  | [] => .ok []
  | a :: rest =>
    match f a with
    | .error e => .error e
    | .ok b =>
      match exceptMapList f rest with
      | .error e => .error e
      | .ok bs => .ok (b :: bs)

/-- The _build_tasks loop over an already materialized activity
list. -/
def buildTasksList : List Json → Except PyErr (List Task) :=
  exceptMapList buildTask

/-- Embeds _build_tasks: iterates `activities or empty list` and
builds one Task per activity in source order. -/
def build_tasks (activities : Json) : Except PyErr (List Task) :=
  match (pyOr activities (Json.arr [])).iter with
  | .error e => .error e
  | .ok l => buildTasksList l

/-- Embeds the body of next_record for one remote pipeline descriptor,
in source evaluation order: name, properties (default empty dict),
activities (default empty list), tasks via _build_tasks, then the
record with description passed through, a name-only service reference
and sourceUrl from the id field with empty-string fallback. -/
def buildRecord (sn : String) (p : Json) : Except PyErr CreatePipelineRequest :=
  match p.get1 "name" with
  | .error e => .error e
  | .ok name =>
    match p.dget "properties" (Json.obj []) with
    | .error e => .error e
    | .ok props =>
      match props.dget "activities" (Json.arr []) with
      | .error e => .error e
      | .ok acts =>
        match build_tasks acts with
        | .error e => .error e
        | .ok tasks =>
          match props.get1 "description" with
          | .error e => .error e
          | .ok desc =>
            match p.get1 "id" with
            | .error e => .error e
            | .ok pid =>
              .ok { name := name, displayName := name,
                    description := desc,
                    service := { id := none, type := "pipelineService",
                                 name := sn },
                    tasks := tasks,
                    sourceUrl := pyOr pid (Json.str "") }

/-- The next_record loop over the listed pipeline descriptors. -/
def buildRecords (sn : String) : List Json → Except PyErr (List CreatePipelineRequest) :=
  exceptMapList (buildRecord sn)

/-- The fixed ARM management base URL. -/
def ARM : String := "https://management.azure.com/"

/-- urljoin of the fixed ARM base with a path, specialised to that
base: an absolute path replaces the base path. -/
def arm_url (path : String) : String :=
  if path.startsWith "/" then "https://management.azure.com" ++ path
  else ARM ++ path

/-- Python dict update on embedded string dicts: values of existing
keys are replaced by the extra value, new keys are appended in
order. -/
def dictUpdate (base extra : List (String × String)) : List (String × String) :=
  base.map (fun kv => (kv.1, (extra.lookup kv.1).getD kv.2))
    ++ extra.filter (fun kv => (base.lookup kv.1).isNone)

/-- The GET request that _arm issues for a path and optional extra
query parameters: params start from the fixed api-version entry and
are updated from the extra dict when it is truthy; headers are the
session headers installed at construction; timeout 60. -/
structure ArmRequest where
  url : String
  params : List (String × String)
  headers : List (String × String)
  timeout : Nat

/-- Embeds the request construction in _arm. -/
def arm_request (st : ADFState) (path : String) (params : Option (List (String × String))) : ArmRequest :=
  let base := [("api-version", st.api_version)]
  let merged :=
    match params with
    | none => base
    | some ps => if ps.isEmpty then base else dictUpdate base ps
  { url := arm_url path, params := merged,
    headers := st.sessionHeaders, timeout := 60 }

/-- Embeds the response handling in _arm given the listing-endpoint
response: raise_for_status, then the decoded JSON body. -/
def arm_exec (resp : HttpResp) : Except PyErr Json :=
  match raise_for_status resp.status with
  | .error e => .error e
  | .ok _ => .ok resp.body

/-- Embeds _list_pipelines given the single listing response: the
value field of the first page, defaulting to the empty list when
absent. No continuation token is ever consulted. -/
def list_pipelines (resp : HttpResp) : Except PyErr Json :=
  match arm_exec resp with
  | .error e => .error e
  | .ok data => data.dget "value" (Json.arr [])

/-- Embeds next_record end to end given the listing response: iterate
the listed descriptors and build one record per descriptor in
order. -/
def next_record (st : ADFState) (resp : HttpResp) : Except PyErr (List CreatePipelineRequest) :=
  match list_pipelines resp with
  | .error e => .error e
  | .ok v =>
    match v.iter with
    | .error e => .error e
    | .ok ps => buildRecords st.service_name ps

/-- The Copy activity of the end-to-end scenario in the spec. -/
def copyAkvs : List (String × Json) :=
  [("name", Json.str "copyA"), ("type", Json.str "Copy"),
   ("typeProperties", Json.obj [("sink", Json.obj [("type", Json.str "BlobSink")])])]

/-- The Task built for that Copy activity. -/
def tA : Task :=
  { name := Json.str "copyA", taskType := Json.str "Copy",
    downstreamTasks := some [Json.str "BlobSink"] }

/-- The Task built for an activity descriptor with no fields at all. -/
def tEmpty : Task :=
  { name := Json.str "activity", taskType := Json.str "Activity",
    downstreamTasks := none }

/-- C2: for every activity descriptor for which a Task is produced,
the downstream list is the one-element list holding the nested sink
type exactly when the activity type equals Copy and that sink type is
truthy (present and non-empty); in every other case it is absent
(None), never the empty list. -/
theorem adf_C2 (kvs : List (String × Json)) (t : Task)
    (h : buildTask (Json.obj kvs) = .ok t) :
    (isCopy (objGet kvs "type") = false → t.downstreamTasks = none)
    ∧ (isCopy (objGet kvs "type") = true →
        ∃ v, sinkType (Json.obj kvs) = .ok v
          ∧ (v.truthy = true → t.downstreamTasks = some [v])
          ∧ (v.truthy = false → t.downstreamTasks = none))
    ∧ t.downstreamTasks ≠ some [] := by
  unfold buildTask at h
  simp only [Json.get1] at h
  cases hic : isCopy (objGet kvs "type") with
  | false =>
    have hd : buildDeps (Json.obj kvs) (objGet kvs "type") = .ok [] := by
      simp [buildDeps, hic]
    rw [hd] at h
    injection h with h2
    subst h2
    exact ⟨fun _ => rfl, fun hc => by simp at hc, by simp⟩
  | true =>
    cases hs : sinkType (Json.obj kvs) with
    | error e =>
      have hd : buildDeps (Json.obj kvs) (objGet kvs "type") = .error e := by
        simp [buildDeps, hic, hs]
      rw [hd] at h
      cases h
    | ok v =>
      have hd : buildDeps (Json.obj kvs) (objGet kvs "type")
          = .ok (if v.truthy then [v] else []) := by
        simp [buildDeps, hic, hs]
      rw [hd] at h
      injection h with h2
      subst h2
      cases hv : v.truthy with
      | false =>
        refine ⟨fun hc => by simp at hc, fun _ => ⟨v, rfl, ?_, ?_⟩, ?_⟩
        · intro hc; rw [hv] at hc; simp at hc
        · intro _; simp [hv]
        · simp [hv]
      | true =>
        refine ⟨fun hc => by simp at hc, fun _ => ⟨v, rfl, ?_, ?_⟩, ?_⟩
        · intro _; simp [hv]
        · intro hc; rw [hv] at hc; simp at hc
        · simp [hv]

/-- C2 witness: the scenario Copy activity with sink type BlobSink. -/
theorem adf_C2_witness :
    (isCopy (objGet copyAkvs "type") = false → tA.downstreamTasks = none)
    ∧ (isCopy (objGet copyAkvs "type") = true →
        ∃ v, sinkType (Json.obj copyAkvs) = .ok v
          ∧ (v.truthy = true → tA.downstreamTasks = some [v])
          ∧ (v.truthy = false → tA.downstreamTasks = none))
    ∧ tA.downstreamTasks ≠ some [] :=
  adf_C2 copyAkvs tA rfl

/-- C3: for every activity descriptor for which a Task is produced,
an absent (null) or empty-string name yields the literal name
activity, an absent or empty-string type yields the literal task type
Activity, and a non-empty string name or type is carried through
unchanged. -/
theorem adf_C3 (kvs : List (String × Json)) (t : Task)
    (h : buildTask (Json.obj kvs) = .ok t) :
    ((objGet kvs "name" = Json.null ∨ objGet kvs "name" = Json.str "") →
      t.name = Json.str "activity")
    ∧ (∀ s : String, s ≠ "" → objGet kvs "name" = Json.str s → t.name = Json.str s)
    ∧ ((objGet kvs "type" = Json.null ∨ objGet kvs "type" = Json.str "") →
      t.taskType = Json.str "Activity")
    ∧ (∀ s : String, s ≠ "" → objGet kvs "type" = Json.str s → t.taskType = Json.str s) := by
  unfold buildTask at h
  simp only [Json.get1] at h
  cases hd : buildDeps (Json.obj kvs) (objGet kvs "type") with
  | error e => rw [hd] at h; cases h
  | ok deps =>
    rw [hd] at h
    injection h with h2
    subst h2
    refine ⟨fun hc => ?_, fun s hs hc => ?_, fun hc => ?_, fun s hs hc => ?_⟩
    · rcases hc with hc | hc <;> simp [pyOr, Json.truthy, hc]
    · simp [pyOr, Json.truthy, hc, hs]
    · rcases hc with hc | hc <;> simp [pyOr, Json.truthy, hc]
    · simp [pyOr, Json.truthy, hc, hs]

/-- C3 witness: the empty activity descriptor gets both fallbacks. -/
theorem adf_C3_witness :
    ((objGet [] "name" = Json.null ∨ objGet [] "name" = Json.str "") →
      tEmpty.name = Json.str "activity")
    ∧ (∀ s : String, s ≠ "" → objGet [] "name" = Json.str s → tEmpty.name = Json.str s)
    ∧ ((objGet [] "type" = Json.null ∨ objGet [] "type" = Json.str "") →
      tEmpty.taskType = Json.str "Activity")
    ∧ (∀ s : String, s ≠ "" → objGet [] "type" = Json.str s → tEmpty.taskType = Json.str s) :=
  adf_C3 [] tEmpty rfl

/-- C7: the task-building step is not total on malformed activities:
a Copy activity whose typeProperties field is null makes _build_tasks
raise AttributeError (None has no get method), instead of degrading to
fallback values as the spec requires. -/
theorem adf_C7_failing :
    build_tasks (Json.arr [Json.obj [("type", Json.str "Copy"),
        ("typeProperties", Json.null)]])
      = .error PyErr.attributeError := rfl

/-- Helper: _build_tasks applied to a materialized JSON list is the
task loop over its elements (the `or` guard is the identity there). -/
theorem build_tasks_arr (l : List Json) : build_tasks (Json.arr l) = buildTasksList l := by
  cases l with
  | nil => rfl
  | cons a r => rfl

/-- Helper: a successful fallible map yields one output per input, in
source order. -/
theorem exceptMapList_ok {α β : Type} (f : α → Except PyErr β) :
    ∀ (xs : List α) (ys : List β), exceptMapList f xs = .ok ys →
      ys.length = xs.length ∧
      ∀ (i : Nat) (h1 : i < xs.length) (h2 : i < ys.length),
        f (xs.get ⟨i, h1⟩) = .ok (ys.get ⟨i, h2⟩) := by
  intro xs
  induction xs with
  | nil =>
    intro ys h
    injection h with h2
    subst h2
    exact ⟨rfl, fun i h1 _ => absurd h1 (by simp)⟩
  | cons a rest ih =>
    intro ys h
    unfold exceptMapList at h
    cases hf : f a with
    | error e => rw [hf] at h; cases h
    | ok b =>
      rw [hf] at h
      cases hrest : exceptMapList f rest with
      | error e => rw [hrest] at h; cases h
      | ok bs =>
        rw [hrest] at h
        injection h with h2
        subst h2
        obtain ⟨hlen, hget⟩ := ih bs hrest
        refine ⟨by simp [hlen], ?_⟩
        intro i h1 h2
        cases i with
        | zero => simpa using hf
        | succ n =>
          have hn1 : n < rest.length := by simpa using h1
          have hn2 : n < bs.length := by simpa using h2
          simpa using hget n hn1 hn2

/-- C1: for every remote pipeline descriptor for which next_record
builds a record, the record name and displayName are the descriptor
name field, the description is properties.description passed through
unchanged (null included), the service reference carries only the
configured service name with no id, and sourceUrl is the id field, or
the empty string when the id field is absent or empty. -/
theorem adf_C1 (sn : String) (kvs : List (String × Json)) (r : CreatePipelineRequest)
    (h : buildRecord sn (Json.obj kvs) = .ok r) :
    r.name = objGet kvs "name"
    ∧ r.displayName = objGet kvs "name"
    ∧ (∃ pkvs, (kvs.lookup "properties").getD (Json.obj []) = Json.obj pkvs
        ∧ r.description = objGet pkvs "description")
    ∧ r.service = { id := none, type := "pipelineService", name := sn }
    ∧ ((objGet kvs "id" = Json.null ∨ objGet kvs "id" = Json.str "") →
        r.sourceUrl = Json.str "")
    ∧ (∀ s : String, s ≠ "" → objGet kvs "id" = Json.str s → r.sourceUrl = Json.str s) := by
  unfold buildRecord at h
  simp only [Json.get1, Json.dget] at h
  cases hp : (kvs.lookup "properties").getD (Json.obj []) with
  | null => rw [hp] at h; simp [Json.dget] at h
  | bool b => rw [hp] at h; simp [Json.dget] at h
  | str s => rw [hp] at h; simp [Json.dget] at h
  | num n => rw [hp] at h; simp [Json.dget] at h
  | arr l => rw [hp] at h; simp [Json.dget] at h
  | obj pkvs =>
    rw [hp] at h
    simp only [Json.dget, Json.get1] at h
    cases ht : build_tasks ((pkvs.lookup "activities").getD (Json.arr [])) with
    | error e => rw [ht] at h; cases h
    | ok tasks =>
      rw [ht] at h
      injection h with h2
      subst h2
      refine ⟨rfl, rfl, ⟨pkvs, rfl, rfl⟩, rfl, fun hc => ?_, fun s hs hc => ?_⟩
      · rcases hc with hc | hc <;> simp [pyOr, Json.truthy, hc]
      · simp [pyOr, Json.truthy, hc, hs]

/-- The scenario pipeline descriptor from the spec, holding the Copy
activity. -/
def p1kvs : List (String × Json) :=
  [("name", Json.str "p1"), ("id", Json.str "/sub/f1/p1"),
   ("properties", Json.obj [("description", Json.str "d"),
      ("activities", Json.arr [Json.obj copyAkvs])])]

/-- The service reference built for service name svc. -/
def svcRef : EntityReference :=
  { id := none, type := "pipelineService", name := "svc" }

/-- The record emitted for the scenario pipeline descriptor. -/
def r1 : CreatePipelineRequest :=
  { name := Json.str "p1", displayName := Json.str "p1",
    description := Json.str "d", service := svcRef, tasks := [tA],
    sourceUrl := Json.str "/sub/f1/p1" }

/-- C1 witness: the scenario pipeline descriptor. -/
theorem adf_C1_witness :
    r1.name = objGet p1kvs "name"
    ∧ r1.displayName = objGet p1kvs "name"
    ∧ (∃ pkvs, (p1kvs.lookup "properties").getD (Json.obj []) = Json.obj pkvs
        ∧ r1.description = objGet pkvs "description")
    ∧ r1.service = { id := none, type := "pipelineService", name := "svc" }
    ∧ ((objGet p1kvs "id" = Json.null ∨ objGet p1kvs "id" = Json.str "") →
        r1.sourceUrl = Json.str "")
    ∧ (∀ s : String, s ≠ "" → objGet p1kvs "id" = Json.str s → r1.sourceUrl = Json.str s) :=
  adf_C1 "svc" p1kvs r1 rfl

/-- C10: a pipeline descriptor whose properties.activities field is
absent, null or the empty list still yields a record, with the empty
task list and all other fields built as usual, and no error. -/
theorem adf_C10 (sn : String) (kvs pkvs : List (String × Json))
    (hp : (kvs.lookup "properties").getD (Json.obj []) = Json.obj pkvs)
    (ha : pkvs.lookup "activities" = none
          ∨ pkvs.lookup "activities" = some Json.null
          ∨ pkvs.lookup "activities" = some (Json.arr [])) :
    buildRecord sn (Json.obj kvs)
      = .ok { name := objGet kvs "name", displayName := objGet kvs "name",
              description := objGet pkvs "description",
              service := { id := none, type := "pipelineService", name := sn },
              tasks := [],
              sourceUrl := pyOr (objGet kvs "id") (Json.str "") } := by
  unfold buildRecord
  simp only [Json.get1, Json.dget, hp]
  rcases ha with ha | ha | ha <;>
    simp [ha, build_tasks, pyOr, Json.truthy, Json.iter, buildTasksList, exceptMapList]

/-- C10 witness: a descriptor whose activities field is null. -/
theorem adf_C10_witness :
    buildRecord "svc"
        (Json.obj [("properties", Json.obj [("activities", Json.null)])])
      = .ok { name := objGet [("properties", Json.obj [("activities", Json.null)])] "name",
              displayName := objGet [("properties", Json.obj [("activities", Json.null)])] "name",
              description := objGet [("activities", Json.null)] "description",
              service := { id := none, type := "pipelineService", name := "svc" },
              tasks := [],
              sourceUrl := pyOr (objGet [("properties", Json.obj [("activities", Json.null)])] "id")
                (Json.str "") } :=
  adf_C10 "svc" [("properties", Json.obj [("activities", Json.null)])]
    [("activities", Json.null)] rfl (Or.inr (Or.inl rfl))

/-- C4: emitted records appear in exactly the order of the listed
pipeline descriptors (one record per descriptor), tasks appear in
exactly the source order of the activity descriptors (one task per
activity), and the task list stored in a record is the one built from
that descriptor properties.activities list. -/
theorem adf_C4 (sn : String) (ps : List Json) (recs : List CreatePipelineRequest)
    (acts : List Json) (ts : List Task)
    (hr : buildRecords sn ps = .ok recs) (ht : buildTasksList acts = .ok ts) :
    (recs.length = ps.length ∧
      ∀ (i : Nat) (h1 : i < ps.length) (h2 : i < recs.length),
        buildRecord sn (ps.get ⟨i, h1⟩) = .ok (recs.get ⟨i, h2⟩))
    ∧ (ts.length = acts.length ∧
      ∀ (i : Nat) (h1 : i < acts.length) (h2 : i < ts.length),
        buildTask (acts.get ⟨i, h1⟩) = .ok (ts.get ⟨i, h2⟩))
    ∧ (∀ (kvs pkvs : List (String × Json)) (r : CreatePipelineRequest) (al : List Json),
        buildRecord sn (Json.obj kvs) = .ok r →
        (kvs.lookup "properties").getD (Json.obj []) = Json.obj pkvs →
        (pkvs.lookup "activities").getD (Json.arr []) = Json.arr al →
        buildTasksList al = .ok r.tasks) := by
  refine ⟨exceptMapList_ok _ ps recs hr, exceptMapList_ok _ acts ts ht, ?_⟩
  intro kvs pkvs r al h hp ha
  unfold buildRecord at h
  simp only [Json.get1, Json.dget, hp] at h
  rw [ha, build_tasks_arr] at h
  cases hbt : buildTasksList al with
  | error e => rw [hbt] at h; cases h
  | ok ts2 =>
    rw [hbt] at h
    injection h with h2
    subst h2
    rfl

/-- First activity of scenario pipeline A. -/
def a1 : Json := Json.obj [("name", Json.str "a1"), ("type", Json.str "Lookup")]

/-- Second activity of scenario pipeline A. -/
def a2 : Json := Json.obj [("name", Json.str "a2"), ("type", Json.str "Wait")]

/-- Single activity of scenario pipeline B, a Copy with a sink. -/
def b1 : Json :=
  Json.obj [("name", Json.str "b1"), ("type", Json.str "Copy"),
    ("typeProperties", Json.obj [("sink", Json.obj [("type", Json.str "AzureBlobSink")])])]

/-- Scenario pipeline descriptor A with activities a1, a2. -/
def pA : Json :=
  Json.obj [("name", Json.str "A"),
    ("properties", Json.obj [("activities", Json.arr [a1, a2])])]

/-- Scenario pipeline descriptor B with activity b1. -/
def pB : Json :=
  Json.obj [("name", Json.str "B"),
    ("properties", Json.obj [("activities", Json.arr [b1])])]

/-- Task built for a1. -/
def tA1 : Task :=
  { name := Json.str "a1", taskType := Json.str "Lookup", downstreamTasks := none }

/-- Task built for a2. -/
def tA2 : Task :=
  { name := Json.str "a2", taskType := Json.str "Wait", downstreamTasks := none }

/-- Task built for b1. -/
def tB1 : Task :=
  { name := Json.str "b1", taskType := Json.str "Copy",
    downstreamTasks := some [Json.str "AzureBlobSink"] }

/-- Record emitted for scenario pipeline A. -/
def rA : CreatePipelineRequest :=
  { name := Json.str "A", displayName := Json.str "A", description := Json.null,
    service := svcRef, tasks := [tA1, tA2], sourceUrl := Json.str "" }

/-- Record emitted for scenario pipeline B. -/
def rB : CreatePipelineRequest :=
  { name := Json.str "B", displayName := Json.str "B", description := Json.null,
    service := svcRef, tasks := [tB1], sourceUrl := Json.str "" }

/-- C4 witness: pipelines A and B with activities a1, a2 and b1 yield
the records for A then B, in that order, with tasks in source
order. -/
theorem adf_C4_witness :
    (([rA, rB] : List CreatePipelineRequest).length = ([pA, pB] : List Json).length ∧
      ∀ (i : Nat) (h1 : i < ([pA, pB] : List Json).length)
        (h2 : i < ([rA, rB] : List CreatePipelineRequest).length),
        buildRecord "svc" (([pA, pB] : List Json).get ⟨i, h1⟩)
          = .ok (([rA, rB] : List CreatePipelineRequest).get ⟨i, h2⟩))
    ∧ (([tA1, tA2, tB1] : List Task).length = ([a1, a2, b1] : List Json).length ∧
      ∀ (i : Nat) (h1 : i < ([a1, a2, b1] : List Json).length)
        (h2 : i < ([tA1, tA2, tB1] : List Task).length),
        buildTask (([a1, a2, b1] : List Json).get ⟨i, h1⟩)
          = .ok (([tA1, tA2, tB1] : List Task).get ⟨i, h2⟩))
    ∧ (∀ (kvs pkvs : List (String × Json)) (r : CreatePipelineRequest) (al : List Json),
        buildRecord "svc" (Json.obj kvs) = .ok r →
        (kvs.lookup "properties").getD (Json.obj []) = Json.obj pkvs →
        (pkvs.lookup "activities").getD (Json.arr []) = Json.arr al →
        buildTasksList al = .ok r.tasks) :=
  adf_C4 "svc" [pA, pB] [rA, rB] [a1, a2, b1] [tA1, tA2, tB1] rfl rfl

/-- The complete connection-options dict of the end-to-end scenario. -/
def exampleOpts : List (String × String) :=
  [("subscription_id", "s1"), ("resource_group", "rg1"),
   ("factory_name", "f1"), ("tenant_id", "t1"), ("client_id", "c1"),
   ("client_secret", "sec"), ("service_name", "svc")]

/-- C5: a configuration missing any required option makes construction
fail with the KeyError for a required key (the realisation of
ConfigurationError in this code), and the failure is the same for
every possible token-endpoint response, so it happens before any
network call could matter. -/
theorem adf_C5 (opts : List (String × String))
    (h : ∃ k ∈ requiredKeys, opts.lookup k = none) :
    ∃ k ∈ requiredKeys, ∀ resp : HttpResp,
      init opts resp = .error (.keyError k) := by
  cases h1 : opts.lookup "subscription_id" with
  | none =>
    exact ⟨"subscription_id", by simp [requiredKeys],
      fun resp => by unfold init; simp [optGet, h1]⟩
  | some v1 =>
  cases h2 : opts.lookup "resource_group" with
  | none =>
    exact ⟨"resource_group", by simp [requiredKeys],
      fun resp => by unfold init; simp [optGet, h1, h2]⟩
  | some v2 =>
  cases h3 : opts.lookup "factory_name" with
  | none =>
    exact ⟨"factory_name", by simp [requiredKeys],
      fun resp => by unfold init; simp [optGet, h1, h2, h3]⟩
  | some v3 =>
  cases h4 : opts.lookup "tenant_id" with
  | none =>
    exact ⟨"tenant_id", by simp [requiredKeys],
      fun resp => by unfold init; simp [optGet, h1, h2, h3, h4]⟩
  | some v4 =>
  cases h5 : opts.lookup "client_id" with
  | none =>
    exact ⟨"client_id", by simp [requiredKeys],
      fun resp => by unfold init; simp [optGet, h1, h2, h3, h4, h5]⟩
  | some v5 =>
  cases h6 : opts.lookup "client_secret" with
  | none =>
    exact ⟨"client_secret", by simp [requiredKeys],
      fun resp => by unfold init; simp [optGet, h1, h2, h3, h4, h5, h6]⟩
  | some v6 =>
  cases h7 : opts.lookup "service_name" with
  | none =>
    exact ⟨"service_name", by simp [requiredKeys],
      fun resp => by unfold init; simp [optGet, h1, h2, h3, h4, h5, h6, h7]⟩
  | some v7 =>
  exfalso
  obtain ⟨k, hk, hnone⟩ := h
  simp [requiredKeys] at hk
  rcases hk with rfl | rfl | rfl | rfl | rfl | rfl | rfl <;> simp_all

/-- C5 witness: a configuration holding only subscription_id. -/
theorem adf_C5_witness :
    ∃ k ∈ requiredKeys, ∀ resp : HttpResp,
      init [("subscription_id", "s1")] resp = .error (.keyError k) :=
  adf_C5 [("subscription_id", "s1")] ⟨"resource_group", by decide, by decide⟩

/-- C6 counterexample to the claim as stated: a token-endpoint
response with the non-2xx status 300 and a JSON body holding
access_token does not fail at all, because raise_for_status only
raises for statuses 400 to 599; token acquisition succeeds. -/
theorem adf_C6_counterexample :
    get_azure_token ⟨300, Json.obj [("access_token", Json.str "tok")]⟩
        = .ok (Json.str "tok")
    ∧ ¬ (200 ≤ 300 ∧ 300 ≤ 299) :=
  ⟨rfl, by decide⟩

/-- C6 amended: for every token-endpoint response with a 4xx or 5xx
status, token acquisition fails with the error carrying that status
(AuthenticationError), for every listing response with a 4xx or 5xx
status the listing step fails with the error carrying that status
(UpstreamApiError), and the token failure propagates unchanged out of
construction; no retry path exists in the model. -/
theorem adf_C6 (s : Nat) (h : 400 ≤ s ∧ s < 600) (tb lb : Json) :
    get_azure_token ⟨s, tb⟩ = .error (.httpError s)
    ∧ list_pipelines ⟨s, lb⟩ = .error (.httpError s)
    ∧ init exampleOpts ⟨s, tb⟩ = .error (.httpError s) := by
  have hr : raise_for_status s = .error (.httpError s) := by
    unfold raise_for_status
    rw [if_pos h]
  have e1 : optGet exampleOpts "subscription_id" = .ok "s1" := rfl
  have e2 : optGet exampleOpts "resource_group" = .ok "rg1" := rfl
  have e3 : optGet exampleOpts "factory_name" = .ok "f1" := rfl
  have e4 : optGet exampleOpts "tenant_id" = .ok "t1" := rfl
  have e5 : optGet exampleOpts "client_id" = .ok "c1" := rfl
  have e6 : optGet exampleOpts "client_secret" = .ok "sec" := rfl
  have e7 : optGet exampleOpts "service_name" = .ok "svc" := rfl
  refine ⟨?_, ?_, ?_⟩
  · unfold get_azure_token
    simp [hr]
  · unfold list_pipelines arm_exec
    simp [hr]
  · unfold init
    unfold get_azure_token
    simp [e1, e2, e3, e4, e5, e6, e7, hr]

/-- C6 witness: status 404. -/
theorem adf_C6_witness :
    get_azure_token ⟨404, Json.null⟩ = .error (.httpError 404)
    ∧ list_pipelines ⟨404, Json.null⟩ = .error (.httpError 404)
    ∧ init exampleOpts ⟨404, Json.null⟩ = .error (.httpError 404) :=
  adf_C6 404 (by decide) Json.null Json.null

/-- C9: for every non-error listing response, _list_pipelines returns
exactly the value array of that single first page (no continuation is
followed: the result depends on nothing but the value field), and the
empty list when the value field is absent. -/
theorem adf_C9 (status : Nat) (kvs : List (String × Json))
    (h : ¬ (400 ≤ status ∧ status < 600)) :
    list_pipelines ⟨status, Json.obj kvs⟩
        = .ok ((kvs.lookup "value").getD (Json.arr []))
    ∧ (kvs.lookup "value" = none →
        list_pipelines ⟨status, Json.obj kvs⟩ = .ok (Json.arr [])) := by
  have hr : raise_for_status status = .ok () := by
    unfold raise_for_status
    rw [if_neg h]
  constructor
  · unfold list_pipelines arm_exec
    simp [hr, Json.dget]
  · intro hv
    unfold list_pipelines arm_exec
    simp [hr, Json.dget, hv]

/-- C9 witness: a page whose body also carries a continuation link;
the result is exactly the value array. -/
theorem adf_C9_witness :
    list_pipelines ⟨200, Json.obj [("value", Json.arr [pA]),
        ("nextLink", Json.str "more")]⟩
        = .ok (([("value", Json.arr [pA]),
            ("nextLink", Json.str "more")].lookup "value").getD (Json.arr []))
    ∧ ([("value", Json.arr [pA]), ("nextLink", Json.str "more")].lookup "value" = none →
        list_pipelines ⟨200, Json.obj [("value", Json.arr [pA]),
            ("nextLink", Json.str "more")]⟩ = .ok (Json.arr [])) :=
  adf_C9 200 [("value", Json.arr [pA]), ("nextLink", Json.str "more")] (by decide)

/-- Helper: looking up a key that no entry of the dict carries gives
none. -/
theorem lookup_none_of_keys (l : List (String × String)) (k : String)
    (h : ∀ kv ∈ l, kv.1 ≠ k) : l.lookup k = none := by
  induction l with
  | nil => rfl
  | cons kv rest ih =>
    obtain ⟨a, b⟩ := kv
    have hk : (k == a) = false :=
      beq_eq_false_iff_ne.mpr (fun he => (h (a, b) (by simp)) he.symm)
    simp only [List.lookup, hk]
    exact ih (fun kv2 h2 => h kv2 (List.mem_cons_of_mem _ h2))

/-- Helper: looking up the key of the head entry. -/
theorem lookup_cons_self (a b : String) (l : List (String × String)) :
    List.lookup a ((a, b) :: l) = some b := by
  simp [List.lookup]

/-- Helper: a head entry with a different key is skipped by lookup. -/
theorem lookup_cons_ne (k a b : String) (l : List (String × String))
    (h : (k == a) = false) : List.lookup k ((a, b) :: l) = List.lookup k l := by
  simp [List.lookup, h]

/-- Helper: the dict-update filter drops no entry whose key differs
from api-version, so looking up such a key is unchanged. -/
theorem lookup_filter_keep (av : String) (l : List (String × String)) (k v : String)
    (hbk : (k == "api-version") = false) (hkv : l.lookup k = some v) :
    (l.filter (fun kv => (List.lookup kv.1 [("api-version", av)]).isNone)).lookup k
      = some v := by
  induction l with
  | nil => cases hkv
  | cons kv rest ih =>
    obtain ⟨a, b⟩ := kv
    by_cases hka : k = a
    · subst hka
      have hp : ((fun kv : String × String =>
          (List.lookup kv.1 [("api-version", av)]).isNone) (k, b)) = true := by
        show (List.lookup k [("api-version", av)]).isNone = true
        rw [lookup_cons_ne _ _ _ _ hbk]
        rfl
      have hfc : List.filter (fun kv : String × String =>
            (List.lookup kv.1 [("api-version", av)]).isNone) ((k, b) :: rest)
          = (k, b) :: List.filter (fun kv : String × String =>
            (List.lookup kv.1 [("api-version", av)]).isNone) rest :=
        List.filter_cons_of_pos hp
      rw [hfc, lookup_cons_self]
      rw [lookup_cons_self] at hkv
      exact hkv
    · have hbka : (k == a) = false := beq_eq_false_iff_ne.mpr hka
      rw [lookup_cons_ne _ _ _ _ hbka] at hkv
      cases hpv : ((fun kv : String × String =>
          (List.lookup kv.1 [("api-version", av)]).isNone) (a, b)) with
      | true =>
        have hfc : List.filter (fun kv : String × String =>
              (List.lookup kv.1 [("api-version", av)]).isNone) ((a, b) :: rest)
            = (a, b) :: List.filter (fun kv : String × String =>
              (List.lookup kv.1 [("api-version", av)]).isNone) rest :=
          List.filter_cons_of_pos hpv
        rw [hfc, lookup_cons_ne _ _ _ _ hbka]
        exact ih hkv
      | false =>
        have hfc : List.filter (fun kv : String × String =>
              (List.lookup kv.1 [("api-version", av)]).isNone) ((a, b) :: rest)
            = List.filter (fun kv : String × String =>
              (List.lookup kv.1 [("api-version", av)]).isNone) rest :=
          List.filter_cons_of_neg (by simp [hpv])
        rw [hfc]
        exact ih hkv

/-- Helper: every successfully constructed instance has api_version
2018-06-01 and session headers holding exactly the Bearer token
installed at construction. -/
theorem init_ok_fields (opts : List (String × String)) (resp : HttpResp) (st : ADFState)
    (hst : init opts resp = .ok st) :
    st.api_version = "2018-06-01"
    ∧ st.sessionHeaders = [("Authorization", "Bearer " ++ st.token.pyStr)] := by
  unfold init at hst
  cases h1 : optGet opts "subscription_id" with
  | error e => rw [h1] at hst; cases hst
  | ok v1 =>
  rw [h1] at hst
  cases h2 : optGet opts "resource_group" with
  | error e => rw [h2] at hst; cases hst
  | ok v2 =>
  rw [h2] at hst
  cases h3 : optGet opts "factory_name" with
  | error e => rw [h3] at hst; cases hst
  | ok v3 =>
  rw [h3] at hst
  cases h4 : optGet opts "tenant_id" with
  | error e => rw [h4] at hst; cases hst
  | ok v4 =>
  rw [h4] at hst
  cases h5 : optGet opts "client_id" with
  | error e => rw [h5] at hst; cases hst
  | ok v5 =>
  rw [h5] at hst
  cases h6 : optGet opts "client_secret" with
  | error e => rw [h6] at hst; cases hst
  | ok v6 =>
  rw [h6] at hst
  cases h7 : optGet opts "service_name" with
  | error e => rw [h7] at hst; cases hst
  | ok v7 =>
  rw [h7] at hst
  cases h8 : get_azure_token resp with
  | error e => rw [h8] at hst; cases hst
  | ok tok =>
  rw [h8] at hst
  injection hst with h9
  subst h9
  exact ⟨rfl, rfl⟩

/-- The token response of the end-to-end scenario. -/
def egTokenResp : HttpResp := ⟨200, Json.obj [("access_token", Json.str "tok")]⟩

/-- The instance state built from the scenario configuration and
token response. -/
def egState : ADFState :=
  { sub := "s1", rg := "rg1", factory := "f1", tenant := "t1", cid := "c1",
    csec := "sec", service_name := "svc", project := "default",
    token := Json.str "tok",
    sessionHeaders := [("Authorization", "Bearer tok")],
    api_version := "2018-06-01" }

/-- C8 counterexample to the claim as stated: for a reachable session
state, an extra query-parameter map that itself carries an api-version
key overrides the fixed value, because dict update replaces existing
keys; the issued request then carries api-version 9999, not
2018-06-01. -/
theorem adf_C8_counterexample :
    init exampleOpts egTokenResp = .ok egState
    ∧ (arm_request egState "/x" (some [("api-version", "9999")])).params.lookup "api-version"
        = some "9999" :=
  ⟨rfl, rfl⟩

/-- C8 amended: for every constructed instance and every extra
query-parameter map that does not itself carry an api-version key, the
GET request built by _arm carries api-version 2018-06-01, all extra
parameters are merged in, and the headers of every request are exactly
the session headers, which hold the single Bearer Authorization entry
installed once at construction. -/
theorem adf_C8 (opts : List (String × String)) (resp : HttpResp) (st : ADFState)
    (path : String) (extra : List (String × String))
    (hst : init opts resp = .ok st)
    (hex : ∀ kv ∈ extra, kv.1 ≠ "api-version") :
    (arm_request st path none).params.lookup "api-version" = some "2018-06-01"
    ∧ (arm_request st path (some extra)).params.lookup "api-version" = some "2018-06-01"
    ∧ (∀ (k v : String), k ≠ "api-version" → extra.lookup k = some v →
        (arm_request st path (some extra)).params.lookup k = some v)
    ∧ (arm_request st path none).headers = st.sessionHeaders
    ∧ (arm_request st path (some extra)).headers = st.sessionHeaders
    ∧ st.sessionHeaders = [("Authorization", "Bearer " ++ st.token.pyStr)] := by
  obtain ⟨hav, hsh⟩ := init_ok_fields opts resp st hst
  refine ⟨?_, ?_, ?_, rfl, rfl, hsh⟩
  · simp [arm_request, hav, List.lookup]
  · cases extra with
    | nil => simp [arm_request, hav, List.lookup]
    | cons kv rest =>
      have hh : ("api-version" == kv.1) = false :=
        beq_eq_false_iff_ne.mpr (fun he => hex kv (by simp) he.symm)
      have hrest : List.lookup "api-version" rest = none :=
        lookup_none_of_keys _ _ (fun kv2 h2 => hex kv2 (List.mem_cons_of_mem _ h2))
      simp [arm_request, dictUpdate, hav, List.lookup, hh, hrest]
  · intro k v hk hkv
    have hbk : (k == "api-version") = false := beq_eq_false_iff_ne.mpr hk
    cases extra with
    | nil => cases hkv
    | cons kv rest =>
      have hparams : (arm_request st path (some (kv :: rest))).params
          = dictUpdate [("api-version", st.api_version)] (kv :: rest) := by
        simp [arm_request]
      rw [hparams]
      unfold dictUpdate
      simp only [List.map_cons, List.map_nil, List.cons_append, List.nil_append]
      rw [lookup_cons_ne _ _ _ _ hbk]
      exact lookup_filter_keep st.api_version (kv :: rest) k v hbk hkv

/-- C8 witness: the scenario state with one harmless extra query
parameter. -/
theorem adf_C8_witness :
    (arm_request egState "/p" none).params.lookup "api-version" = some "2018-06-01"
    ∧ (arm_request egState "/p" (some [("a", "b")])).params.lookup "api-version"
        = some "2018-06-01"
    ∧ (∀ (k v : String), k ≠ "api-version" → ([("a", "b")] : List (String × String)).lookup k = some v →
        (arm_request egState "/p" (some [("a", "b")])).params.lookup k = some v)
    ∧ (arm_request egState "/p" none).headers = egState.sessionHeaders
    ∧ (arm_request egState "/p" (some [("a", "b")])).headers = egState.sessionHeaders
    ∧ egState.sessionHeaders = [("Authorization", "Bearer " ++ egState.token.pyStr)] :=
  adf_C8 exampleOpts egTokenResp egState "/p" [("a", "b")] rfl (by decide)

end ADF
